import Mathlib

/-!
Shallow embedding of the extrapolation and geometry core of the
Impact-GPE application (src/src/App.tsx together with the extended
variant kept in src/.github/copilot-instructions.md).

JavaScript double arithmetic is modelled over the real numbers: the
closed-form least-squares sums, logarithms, exponentials, square roots
and powers are translated term for term into Mathlib's real functions.
Division by zero is total (equal to 0) in this model, whereas IEEE
doubles produce NaN/Infinity; the theorems about degenerate fits are
therefore phrased as facts about the denominators and the arguments fed
to sqrt, which is what the source computes before IEEE semantics take
over.
-/

noncomputable section

open Real

/-- One experimental observation: drop height (m) and impact depth (cm),
as stored in the React `data` state array. -/
structure Sample where
  height : ℝ
  depth : ℝ

/-- `data.map(({height, depth}) => ({x: Math.log(height), y: Math.log(depth)}))`. -/
def lnSamples (data : List Sample) : List (ℝ × ℝ) :=
  data.map fun s => (Real.log s.height, Real.log s.depth)

/-- `logs.reduce((a, b) => a + b.x, 0)`. -/
def sumX (l : List (ℝ × ℝ)) : ℝ := l.foldl (fun a b => a + b.1) 0

/-- `logs.reduce((a, b) => a + b.y, 0)`. -/
def sumY (l : List (ℝ × ℝ)) : ℝ := l.foldl (fun a b => a + b.2) 0

/-- `logs.reduce((a, b) => a + b.x * b.x, 0)`. -/
def sumXX (l : List (ℝ × ℝ)) : ℝ := l.foldl (fun a b => a + b.1 * b.1) 0

/-- `logs.reduce((a, b) => a + b.x * b.y, 0)`. -/
def sumXY (l : List (ℝ × ℝ)) : ℝ := l.foldl (fun a b => a + b.1 * b.2) 0

/-- Numerator `n * sumXY - sumX * sumY` of the power-fit slope. -/
def powerNum (data : List Sample) : ℝ :=
  ((lnSamples data).length : ℝ) * sumXY (lnSamples data)
    - sumX (lnSamples data) * sumY (lnSamples data)

/-- Denominator `n * sumXX - sumX * sumX` of the power-fit slope. -/
def powerDenom (data : List Sample) : ℝ :=
  ((lnSamples data).length : ℝ) * sumXX (lnSamples data)
    - sumX (lnSamples data) * sumX (lnSamples data)

/-- `const slope = (n * sumXY - sumX * sumY) / (n * sumXX - sumX * sumX)`
in `extrapolateDepth`. -/
def powerSlope (data : List Sample) : ℝ := powerNum data / powerDenom data

/-- `const intercept = (sumY - slope * sumX) / n` in `extrapolateDepth`. -/
def powerIntercept (data : List Sample) : ℝ :=
  (sumY (lnSamples data) - powerSlope data * sumX (lnSamples data))
    / ((lnSamples data).length : ℝ)

/-- `extrapolateDepth(data, targetHeight)`: guard `data.length < 2` returns 0,
otherwise `Math.exp(intercept) * Math.pow(targetHeight, slope)` with the
log-log least-squares coefficients. -/
def extrapolateDepth (data : List Sample) (targetHeight : ℝ) : ℝ :=
  if data.length < 2 then 0
  else Real.exp (powerIntercept data) * targetHeight ^ powerSlope data

/-- `data.reduce((a, b) => a + b.height, 0)` in `extrapolateDepthLinear`. -/
def sumH (data : List Sample) : ℝ := data.foldl (fun a b => a + b.height) 0

/-- `data.reduce((a, b) => a + b.depth, 0)` in `extrapolateDepthLinear`. -/
def sumD (data : List Sample) : ℝ := data.foldl (fun a b => a + b.depth) 0

/-- `data.reduce((a, b) => a + b.height * b.height, 0)`. -/
def sumHH (data : List Sample) : ℝ :=
  data.foldl (fun a b => a + b.height * b.height) 0

/-- `data.reduce((a, b) => a + b.height * b.depth, 0)`. -/
def sumHD (data : List Sample) : ℝ :=
  data.foldl (fun a b => a + b.height * b.depth) 0

/-- Numerator of the linear-fit slope. -/
def linearNum (data : List Sample) : ℝ :=
  (data.length : ℝ) * sumHD data - sumH data * sumD data

/-- Denominator of the linear-fit slope. -/
def linearDenom (data : List Sample) : ℝ :=
  (data.length : ℝ) * sumHH data - sumH data * sumH data

/-- `const slope = ...` in `extrapolateDepthLinear`. -/
def linearSlope (data : List Sample) : ℝ := linearNum data / linearDenom data

/-- `const intercept = (sumY - slope * sumX) / n` in `extrapolateDepthLinear`. -/
def linearIntercept (data : List Sample) : ℝ :=
  (sumD data - linearSlope data * sumH data) / (data.length : ℝ)

/-- `extrapolateDepthLinear(data, targetHeight)`: guard `data.length < 2`
returns 0, otherwise `slope * targetHeight + intercept` on the raw pairs. -/
def extrapolateDepthLinear (data : List Sample) (targetHeight : ℝ) : ℝ :=
  if data.length < 2 then 0
  else linearSlope data * targetHeight + linearIntercept data

/-- `const radii = data.map(({depth}) => Math.sqrt(depth))`. -/
def sqrtDepths (data : List Sample) : List ℝ :=
  data.map fun s => Real.sqrt s.depth

/-- `const avgK = radii.reduce((a, b) => a + b, 0) / radii.length`. -/
def radiusK (data : List Sample) : ℝ :=
  (sqrtDepths data).foldl (fun a b => a + b) 0 / ((sqrtDepths data).length : ℝ)

/-- `extrapolateRadius(data, targetHeight)`: fallback `0.7` below 2 samples,
otherwise `Math.max(0.2, avgK * Math.sqrt(extrapolateDepth(data, targetHeight)))`. -/
def extrapolateRadius (data : List Sample) (targetHeight : ℝ) : ℝ :=
  if data.length < 2 then 0.7
  else max 0.2 (radiusK data * Real.sqrt (extrapolateDepth data targetHeight))

/-- `extrapolateRadiusLinear(data, targetHeight)`: fallback `0.7` below
2 samples, otherwise the same radius heuristic applied to the linear
predicted depth. -/
def extrapolateRadiusLinear (data : List Sample) (targetHeight : ℝ) : ℝ :=
  if data.length < 2 then 0.7
  else max 0.2 (radiusK data * Real.sqrt (extrapolateDepthLinear data targetHeight))

/-- `const earthRadius = 2` in `EarthWithCrater`. -/
def earthRadius : ℝ := 2

/-- `const earthDiameterMeters = 12742000`. -/
def earthDiameterMeters : ℝ := 12742000

/-- `const sceneUnitToMeters = earthDiameterMeters / (2 * earthRadius)`. -/
def sceneUnitToMeters : ℝ := earthDiameterMeters / (2 * earthRadius)

/-- `const maxCrater = (earthDiameterMeters * 10) / sceneUnitToMeters`. -/
def maxCrater : ℝ := earthDiameterMeters * 10 / sceneUnitToMeters

/-- `const depth = Math.max(0.01, Math.min(craterDepth / 100, maxCrater))`:
the inline depth branch of the scene clamping in `EarthWithCrater`. -/
def clampDepth (craterDepth : ℝ) : ℝ :=
  max 0.01 (min (craterDepth / 100) maxCrater)

/-- `const radius = Math.max(0.01, Math.min(craterRadius, maxCrater))`:
the inline radius branch of the scene clamping in `EarthWithCrater`. -/
def clampRadius (craterRadius : ℝ) : ℝ :=
  max 0.01 (min craterRadius maxCrater)

/-- The all-positive invariant on the stored sample sequence. -/
def validSamples (data : List Sample) : Prop :=
  ∀ s ∈ data, 0 < s.height ∧ 0 < s.depth

/-- The Add-button handler: append `{height, depth}` only when
`Number(newRow.height) > 0 && Number(newRow.depth) > 0`, otherwise leave
the sequence unchanged. -/
def addSample (data : List Sample) (h d : ℝ) : List Sample :=
  if 0 < h ∧ 0 < d then data ++ [⟨h, d⟩] else data

/-- The height-cell onChange handler on row `i`:
`newData[i] = { ...newData[i], height: Number(e.target.value) }` with no
positivity check. -/
def editHeight (data : List Sample) (i : ℕ) (v : ℝ) : List Sample :=
  match data, i with
  | [], _ => []
  | s :: rest, 0 => { s with height := v } :: rest
  | s :: rest, Nat.succ n => s :: editHeight rest n v

/-- The depth-cell onChange handler on row `i`, likewise unguarded. -/
def editDepth (data : List Sample) (i : ℕ) (v : ℝ) : List Sample :=
  match data, i with
  | [], _ => []
  | s :: rest, 0 => { s with depth := v } :: rest
  | s :: rest, Nat.succ n => s :: editDepth rest n v

/-- The Delete-button handler on row `i`:
`data.filter((_, j) => j !== i)`, i.e. remove the element at index `i`. -/
def deleteSample (data : List Sample) (i : ℕ) : List Sample :=
  match data, i with
  | [], _ => []
  | _ :: rest, 0 => rest
  | s :: rest, Nat.succ n => s :: deleteSample rest n

/-- The two-point data set (1,1), (2,4) used by the spec's power-model
worked example. -/
def samplesPow : List Sample := [⟨1, 1⟩, ⟨2, 4⟩]

/-- The two-point data set (1,1), (3,5) used by the spec's linear-model
worked example. -/
def samplesLin : List Sample := [⟨1, 1⟩, ⟨3, 5⟩]

/-- A valid decreasing data set (1,5), (2,4) whose linear extrapolation
goes negative at large heights. -/
def samplesDec : List Sample := [⟨1, 5⟩, ⟨2, 4⟩]

end

/-! ## Helper lemmas -/

lemma log_four : Real.log 4 = 2 * Real.log 2 := by
  rw [show (4:ℝ) = 2 ^ 2 by norm_num, Real.log_pow]
  push_cast; ring

lemma powerSlope_samplesPow : powerSlope samplesPow = 2 := by
  have h2 : Real.log 2 ≠ 0 := ne_of_gt (Real.log_pos one_lt_two)
  simp [powerSlope, powerNum, powerDenom, lnSamples, sumX, sumY, sumXX, sumXY,
    samplesPow, List.foldl, log_four]
  ring_nf
  rw [← mul_pow, mul_inv_cancel₀ h2, one_pow, one_mul]

lemma powerIntercept_samplesPow : powerIntercept samplesPow = 0 := by
  rw [powerIntercept, powerSlope_samplesPow]
  simp [lnSamples, sumX, sumY, samplesPow, List.foldl, log_four]

lemma extrapolateDepth_samplesPow : extrapolateDepth samplesPow 8 = 64 := by
  rw [extrapolateDepth, if_neg (by simp [samplesPow]), powerSlope_samplesPow,
    powerIntercept_samplesPow]
  rw [Real.exp_zero, one_mul]
  rw [show ((2:ℝ)) = ((2:ℕ):ℝ) by norm_num, Real.rpow_natCast]
  norm_num

lemma linearSlope_samplesLin : linearSlope samplesLin = 2 := by
  simp [linearSlope, linearNum, linearDenom, sumH, sumD, sumHH, sumHD,
    samplesLin, List.foldl]
  norm_num

lemma linearIntercept_samplesLin : linearIntercept samplesLin = -1 := by
  rw [linearIntercept, linearSlope_samplesLin]
  simp [sumH, sumD, samplesLin, List.foldl]
  norm_num

lemma extrapolateDepthLinear_samplesLin :
    extrapolateDepthLinear samplesLin 10 = 19 := by
  rw [extrapolateDepthLinear, if_neg (by simp [samplesLin]),
    linearSlope_samplesLin, linearIntercept_samplesLin]
  norm_num

lemma foldl_add_of_const {α : Type} (g : α → ℝ) (c : ℝ) :
    ∀ (l : List α), (∀ x ∈ l, g x = c) → ∀ a : ℝ,
      l.foldl (fun s x => s + g x) a = a + l.length * c := by
  intro l
  induction l with
  | nil => intro _ a; simp
  | cons x xs ih =>
      intro hx a
      simp only [List.foldl_cons, List.length_cons]
      rw [ih (fun y hy => hx y (List.mem_cons_of_mem _ hy)) (a + g x),
        hx x (List.mem_cons_self x xs)]
      push_cast
      ring

lemma maxCrater_eq : maxCrater = 40 := by
  rw [maxCrater, sceneUnitToMeters, earthDiameterMeters, earthRadius]
  norm_num

lemma clampRadius_fixed {x : ℝ} (h1 : 0.01 ≤ x) (h2 : x ≤ maxCrater) :
    clampRadius x = x := by
  rw [clampRadius, min_eq_left h2, max_eq_right h1]

lemma clampDepth_mem (d : ℝ) :
    0.01 ≤ clampDepth d ∧ clampDepth d ≤ maxCrater := by
  refine ⟨le_max_left _ _, ?_⟩
  rw [clampDepth, maxCrater_eq]
  exact max_le (by norm_num) (min_le_right _ _)

lemma clampRadius_mem (r : ℝ) :
    0.01 ≤ clampRadius r ∧ clampRadius r ≤ maxCrater := by
  refine ⟨le_max_left _ _, ?_⟩
  rw [clampRadius, maxCrater_eq]
  exact max_le (by norm_num) (min_le_right _ _)

/-! ## Claim theorems -/

/-- Claim C1: for any sample sequence of length at least 2 and any target
height, the Power-model prediction equals
`exp(intercept) * targetHeight ^ slope` with the ordinary-least-squares
slope `(n*Sxy - Sx*Sy) / (n*Sxx - Sx^2)` and intercept
`(Sy - slope*Sx) / n` computed over `(ln height, ln depth)`; and on the
samples (1,1), (2,4) the slope is exactly 2, the intercept 0, and the
prediction at height 8 is 64. -/
theorem extrapolateDepth_power_ols_fit (data : List Sample) (t : ℝ)
    (h2 : 2 ≤ data.length) :
    extrapolateDepth data t
      = Real.exp ((sumY (lnSamples data)
            - (((data.length : ℝ) * sumXY (lnSamples data)
                  - sumX (lnSamples data) * sumY (lnSamples data))
                / ((data.length : ℝ) * sumXX (lnSamples data)
                  - sumX (lnSamples data) * sumX (lnSamples data)))
              * sumX (lnSamples data)) / (data.length : ℝ))
          * t ^ (((data.length : ℝ) * sumXY (lnSamples data)
                  - sumX (lnSamples data) * sumY (lnSamples data))
                / ((data.length : ℝ) * sumXX (lnSamples data)
                  - sumX (lnSamples data) * sumX (lnSamples data)))
      ∧ powerSlope samplesPow = 2
      ∧ powerIntercept samplesPow = 0
      ∧ extrapolateDepth samplesPow 8 = 64 := by
  refine ⟨?_, powerSlope_samplesPow, powerIntercept_samplesPow,
    extrapolateDepth_samplesPow⟩
  rw [extrapolateDepth, if_neg (by omega), powerIntercept, powerSlope, powerNum,
    powerDenom, lnSamples, List.length_map]

/-- Witness for C1 at the concrete data set (1,1), (2,4) and target 8. -/
theorem extrapolateDepth_power_ols_fit_witness :
    extrapolateDepth samplesPow 8
      = Real.exp ((sumY (lnSamples samplesPow)
            - (((samplesPow.length : ℝ) * sumXY (lnSamples samplesPow)
                  - sumX (lnSamples samplesPow) * sumY (lnSamples samplesPow))
                / ((samplesPow.length : ℝ) * sumXX (lnSamples samplesPow)
                  - sumX (lnSamples samplesPow) * sumX (lnSamples samplesPow)))
              * sumX (lnSamples samplesPow)) / (samplesPow.length : ℝ))
          * (8:ℝ) ^ (((samplesPow.length : ℝ) * sumXY (lnSamples samplesPow)
                  - sumX (lnSamples samplesPow) * sumY (lnSamples samplesPow))
                / ((samplesPow.length : ℝ) * sumXX (lnSamples samplesPow)
                  - sumX (lnSamples samplesPow) * sumX (lnSamples samplesPow)))
      ∧ powerSlope samplesPow = 2
      ∧ powerIntercept samplesPow = 0
      ∧ extrapolateDepth samplesPow 8 = 64 :=
  extrapolateDepth_power_ols_fit samplesPow 8 (by simp [samplesPow])

/-- Claim C2: for any sample sequence of length at least 2 and any target
height, the Linear-model prediction equals `slope * targetHeight + intercept`
with the least-squares closed form taken directly on the raw
(height, depth) pairs; and on the samples (1,1), (3,5) the slope is 2, the
intercept is -1, and the prediction at height 10 is 19. -/
theorem extrapolateDepthLinear_ols_fit (data : List Sample) (t : ℝ)
    (h2 : 2 ≤ data.length) :
    extrapolateDepthLinear data t
      = (((data.length : ℝ) * sumHD data - sumH data * sumD data)
          / ((data.length : ℝ) * sumHH data - sumH data * sumH data)) * t
        + (sumD data
            - (((data.length : ℝ) * sumHD data - sumH data * sumD data)
                / ((data.length : ℝ) * sumHH data - sumH data * sumH data))
              * sumH data) / (data.length : ℝ)
      ∧ linearSlope samplesLin = 2
      ∧ linearIntercept samplesLin = -1
      ∧ extrapolateDepthLinear samplesLin 10 = 19 := by
  refine ⟨?_, linearSlope_samplesLin, linearIntercept_samplesLin,
    extrapolateDepthLinear_samplesLin⟩
  rw [extrapolateDepthLinear, if_neg (by omega), linearIntercept, linearSlope,
    linearNum, linearDenom]

/-- Witness for C2 at the concrete data set (1,1), (3,5) and target 10. -/
theorem extrapolateDepthLinear_ols_fit_witness :
    extrapolateDepthLinear samplesLin 10
      = (((samplesLin.length : ℝ) * sumHD samplesLin - sumH samplesLin * sumD samplesLin)
          / ((samplesLin.length : ℝ) * sumHH samplesLin - sumH samplesLin * sumH samplesLin)) * 10
        + (sumD samplesLin
            - (((samplesLin.length : ℝ) * sumHD samplesLin - sumH samplesLin * sumD samplesLin)
                / ((samplesLin.length : ℝ) * sumHH samplesLin - sumH samplesLin * sumH samplesLin))
              * sumH samplesLin) / (samplesLin.length : ℝ)
      ∧ linearSlope samplesLin = 2
      ∧ linearIntercept samplesLin = -1
      ∧ extrapolateDepthLinear samplesLin 10 = 19 :=
  extrapolateDepthLinear_ols_fit samplesLin 10 (by simp [samplesLin])

/-- Claim C3: for any sample sequence of length at least 2 and any target
height, the predicted crater radius equals
`max 0.2 (radius_k * sqrt(predicted_depth))` where `radius_k` is the mean
of `sqrt(depth)` over the samples and `predicted_depth` is the Power-model
prediction, and the returned radius is never below the fixed floor 0.2. -/
theorem extrapolateRadius_heuristic (data : List Sample) (t : ℝ)
    (h2 : 2 ≤ data.length) :
    extrapolateRadius data t
      = max 0.2 (radiusK data * Real.sqrt (extrapolateDepth data t))
      ∧ 0.2 ≤ extrapolateRadius data t := by
  constructor
  · rw [extrapolateRadius, if_neg (by omega)]
  · rw [extrapolateRadius, if_neg (by omega)]
    exact le_max_left _ _

/-- Witness for C3 at the concrete data set (1,1), (2,4) and target 8. -/
theorem extrapolateRadius_heuristic_witness :
    extrapolateRadius samplesPow 8
      = max 0.2 (radiusK samplesPow * Real.sqrt (extrapolateDepth samplesPow 8))
      ∧ 0.2 ≤ extrapolateRadius samplesPow 8 :=
  extrapolateRadius_heuristic samplesPow 8 (by simp [samplesPow])

/-- Counterexample to C4: with fewer than 2 samples the radius fallback is
the constant 0.7, not the documented default minimum radius 0.2. -/
theorem extrapolateRadius_fallback_ne_min_radius :
    extrapolateRadius ([] : List Sample) 100000 = 0.7
    ∧ extrapolateRadius ([] : List Sample) 100000 ≠ 0.2 := by
  constructor
  · rw [extrapolateRadius, if_pos (by simp)]
  · rw [extrapolateRadius, if_pos (by simp)]
    norm_num

/-- Claim C4 as amended: with fewer than 2 samples the extrapolation does
not fail and returns the defined fallbacks: predicted depth 0 (both
models) and the fixed fallback radius 0.7 (both models). -/
theorem extrapolation_insufficient_data_fallback (data : List Sample) (t : ℝ)
    (h : data.length < 2) :
    extrapolateDepth data t = 0
    ∧ extrapolateDepthLinear data t = 0
    ∧ extrapolateRadius data t = 0.7
    ∧ extrapolateRadiusLinear data t = 0.7 := by
  exact ⟨by rw [extrapolateDepth, if_pos h], by rw [extrapolateDepthLinear, if_pos h],
    by rw [extrapolateRadius, if_pos h], by rw [extrapolateRadiusLinear, if_pos h]⟩

/-- Witness for the amended C4 on a singleton sample sequence. -/
theorem extrapolation_insufficient_data_fallback_witness :
    extrapolateDepth [Sample.mk 1 1] 100000 = 0
    ∧ extrapolateDepthLinear [Sample.mk 1 1] 100000 = 0
    ∧ extrapolateRadius [Sample.mk 1 1] 100000 = 0.7
    ∧ extrapolateRadiusLinear [Sample.mk 1 1] 100000 = 0.7 :=
  extrapolation_insufficient_data_fallback [Sample.mk 1 1] 100000 (by simp)

/-- Claim C5: for every finite non-negative input pair the inline scene
clamping of `EarthWithCrater` lands in `[0.01, maxCrater]` in both
components, and `maxCrater` is the fixed multiple 10 of the host sphere's
diameter `2 * earthRadius`, so the clamped shape size is bounded by a
fixed multiple of that diameter. -/
theorem clampToScene_bounds (craterDepth craterRadius : ℝ)
    (_hd : 0 ≤ craterDepth) (_hr : 0 ≤ craterRadius) :
    0.01 ≤ clampDepth craterDepth
    ∧ clampDepth craterDepth ≤ maxCrater
    ∧ 0.01 ≤ clampRadius craterRadius
    ∧ clampRadius craterRadius ≤ maxCrater
    ∧ maxCrater = 10 * (2 * earthRadius) := by
  refine ⟨(clampDepth_mem craterDepth).1, (clampDepth_mem craterDepth).2,
    (clampRadius_mem craterRadius).1, (clampRadius_mem craterRadius).2, ?_⟩
  rw [maxCrater_eq, earthRadius]
  norm_num

/-- Witness for C5 at depth 500 cm and radius 3. -/
theorem clampToScene_bounds_witness :
    0.01 ≤ clampDepth 500
    ∧ clampDepth 500 ≤ maxCrater
    ∧ 0.01 ≤ clampRadius 3
    ∧ clampRadius 3 ≤ maxCrater
    ∧ maxCrater = 10 * (2 * earthRadius) :=
  clampToScene_bounds 500 3 (by norm_num) (by norm_num)

/-- Counterexample to C6: the inline depth mapping re-divides by 100, so
applying it to its own output changes the value: 200 maps to the clamped
depth 2, but a second application yields 0.02. -/
theorem clampDepth_not_idempotent :
    clampDepth 200 = 2
    ∧ clampDepth (clampDepth 200) = 0.02
    ∧ clampDepth (clampDepth 200) ≠ clampDepth 200 := by
  have h1 : clampDepth 200 = 2 := by
    rw [clampDepth, maxCrater_eq]
    rw [show (200:ℝ)/100 = 2 by norm_num, min_eq_left (by norm_num),
      max_eq_right (by norm_num)]
  have h2 : clampDepth 2 = 0.02 := by
    rw [clampDepth, maxCrater_eq]
    rw [show (2:ℝ)/100 = 0.02 by norm_num, min_eq_left (by norm_num),
      max_eq_right (by norm_num)]
  refine ⟨h1, by rw [h1, h2], by rw [h1, h2]; norm_num⟩

/-- Claim C6 as amended: the pure interval clamp to `[0.01, maxCrater]` (the
radius branch) is idempotent, and it leaves the already-clamped output of
the depth branch unchanged; only the depth branch's built-in 1:100 unit
division breaks idempotence of the full depth mapping. -/
theorem clampRadius_idempotent :
    (∀ r : ℝ, clampRadius (clampRadius r) = clampRadius r)
    ∧ (∀ d : ℝ, clampRadius (clampDepth d) = clampDepth d) := by
  constructor
  · intro r
    exact clampRadius_fixed (clampRadius_mem r).1 (clampRadius_mem r).2
  · intro d
    exact clampRadius_fixed (clampDepth_mem d).1 (clampDepth_mem d).2

/-- Claim C7: when all sample heights are equal the least-squares
denominator `n*Sxx - Sx^2` is zero for both the Power fit (on the log
transform) and the Linear fit, and the unguarded slope computations still
divide by that zero denominator. -/
theorem degenerate_equal_heights_zero_denominator (data : List Sample)
    (h : ℝ) (_hn : 2 ≤ data.length) (hall : ∀ s ∈ data, s.height = h) :
    powerDenom data = 0
    ∧ linearDenom data = 0
    ∧ powerSlope data = powerNum data / 0
    ∧ linearSlope data = linearNum data / 0 := by
  have hpd : powerDenom data = 0 := by
    have hmem : ∀ p ∈ lnSamples data, p.1 = Real.log h := by
      intro p hp
      rcases List.mem_map.mp hp with ⟨s, hs, rfl⟩
      simp [hall s hs]
    have h1 : sumX (lnSamples data)
        = 0 + (lnSamples data).length * Real.log h := by
      rw [sumX]
      exact foldl_add_of_const (fun p => p.1) (Real.log h) (lnSamples data) hmem 0
    have h2 : sumXX (lnSamples data)
        = 0 + (lnSamples data).length * (Real.log h * Real.log h) := by
      rw [sumXX]
      exact foldl_add_of_const (fun p => p.1 * p.1) (Real.log h * Real.log h)
        (lnSamples data) (fun p hp => by show p.1 * p.1 = _; rw [hmem p hp]) 0
    rw [powerDenom, h1, h2]
    ring
  have hld : linearDenom data = 0 := by
    have h1 : sumH data = 0 + data.length * h := by
      rw [sumH]
      exact foldl_add_of_const (fun s => s.height) h data hall 0
    have h2 : sumHH data = 0 + data.length * (h * h) := by
      rw [sumHH]
      exact foldl_add_of_const (fun s => s.height * s.height) (h * h) data
        (fun s hs => by show s.height * s.height = _; rw [hall s hs]) 0
    rw [linearDenom, h1, h2]
    ring
  exact ⟨hpd, hld, by rw [powerSlope, hpd], by rw [linearSlope, hld]⟩

/-- Witness for C7 on the all-equal-heights data set (5,1), (5,3). -/
theorem degenerate_equal_heights_zero_denominator_witness :
    powerDenom [Sample.mk 5 1, Sample.mk 5 3] = 0
    ∧ linearDenom [Sample.mk 5 1, Sample.mk 5 3] = 0
    ∧ powerSlope [Sample.mk 5 1, Sample.mk 5 3]
        = powerNum [Sample.mk 5 1, Sample.mk 5 3] / 0
    ∧ linearSlope [Sample.mk 5 1, Sample.mk 5 3]
        = linearNum [Sample.mk 5 1, Sample.mk 5 3] / 0 :=
  degenerate_equal_heights_zero_denominator [Sample.mk 5 1, Sample.mk 5 3] 5
    (by simp)
    (by intro s hs; rcases List.mem_cons.mp hs with h | h
        · rw [h]
        · rw [List.mem_singleton] at h; rw [h])

/-- Claim C8: a 2-point Power fit through samples with positive values and
distinct heights interpolates both samples exactly over real arithmetic. -/
theorem power_two_point_interpolation (h₁ d₁ h₂ d₂ : ℝ) (hh1 : 0 < h₁)
    (hd1 : 0 < d₁) (hh2 : 0 < h₂) (hd2 : 0 < d₂) (hne : h₁ ≠ h₂) :
    extrapolateDepth [⟨h₁, d₁⟩, ⟨h₂, d₂⟩] h₁ = d₁
    ∧ extrapolateDepth [⟨h₁, d₁⟩, ⟨h₂, d₂⟩] h₂ = d₂ := by
  set a := Real.log h₁ with ha
  set b := Real.log d₁ with hb
  set c := Real.log h₂ with hc
  set d := Real.log d₂ with hd
  have hac : a - c ≠ 0 := by
    rw [sub_ne_zero]
    intro h
    exact hne (by rw [← Real.exp_log hh1, ← Real.exp_log hh2, ← ha, ← hc, h])
  have hs : powerSlope [⟨h₁, d₁⟩, ⟨h₂, d₂⟩] = (b - d) / (a - c) := by
    have hnum : powerNum [⟨h₁, d₁⟩, ⟨h₂, d₂⟩] = (a - c) * (b - d) := by
      simp [powerNum, lnSamples, sumX, sumY, sumXY, List.foldl, ← ha, ← hb,
        ← hc, ← hd]
      ring
    have hden : powerDenom [⟨h₁, d₁⟩, ⟨h₂, d₂⟩] = (a - c) * (a - c) := by
      simp [powerDenom, lnSamples, sumX, sumXX, List.foldl, ← ha, ← hc]
      ring
    rw [powerSlope, hnum, hden, mul_div_mul_left _ _ hac]
  have hi : powerIntercept [⟨h₁, d₁⟩, ⟨h₂, d₂⟩]
      = ((b + d) - ((b - d) / (a - c)) * (a + c)) / 2 := by
    rw [powerIntercept, hs]
    simp [lnSamples, sumX, sumY, List.foldl, ← ha, ← hb, ← hc, ← hd]
  constructor
  · rw [extrapolateDepth, if_neg (by simp), hs, hi, Real.rpow_def_of_pos hh1,
      ← ha, ← Real.exp_add, show ((b + d) - ((b - d) / (a - c)) * (a + c)) / 2
        + a * ((b - d) / (a - c)) = b by field_simp; ring, hb,
      Real.exp_log hd1]
  · rw [extrapolateDepth, if_neg (by simp), hs, hi, Real.rpow_def_of_pos hh2,
      ← hc, ← Real.exp_add, show ((b + d) - ((b - d) / (a - c)) * (a + c)) / 2
        + c * ((b - d) / (a - c)) = d by field_simp; ring, hd,
      Real.exp_log hd2]

/-- Witness for C8 on the samples (1,1), (2,4): the fitted curve returns
depth 1 at height 1 and depth 4 at height 2. -/
theorem power_two_point_interpolation_witness :
    extrapolateDepth [⟨1, 1⟩, ⟨2, 4⟩] 1 = 1
    ∧ extrapolateDepth [⟨1, 1⟩, ⟨2, 4⟩] 2 = 4 :=
  power_two_point_interpolation 1 1 2 4 (by norm_num) (by norm_num)
    (by norm_num) (by norm_num) (by norm_num)

/-- Counterexample to C9: in-place editing of a stored row performs no
positivity check, so an edit can store a sample with a negative height
even though the sequence satisfied the invariant before. -/
theorem editHeight_breaks_positivity_invariant :
    validSamples [Sample.mk 1 1]
    ∧ editHeight [Sample.mk 1 1] 0 (-1) = [Sample.mk (-1) 1]
    ∧ ¬ validSamples (editHeight [Sample.mk 1 1] 0 (-1)) := by
  refine ⟨?_, rfl, ?_⟩
  · intro s hs
    rw [List.mem_singleton] at hs
    rw [hs]
    exact ⟨one_pos, one_pos⟩
  · intro hv
    have := hv (Sample.mk (-1) 1) (by rw [show editHeight [Sample.mk 1 1] 0 (-1)
      = [Sample.mk (-1) 1] from rfl]; exact List.mem_singleton.mpr rfl)
    norm_num at this

/-- Claim C9 as amended: the Add handler rejects non-positive heights or
depths (leaving the sequence unchanged) and deletion removes a row, so
both preserve the all-positive invariant; the in-place edit handlers
store the new numeric value unvalidated and do not preserve it. -/
theorem add_delete_preserve_positivity :
    (∀ (data : List Sample) (h d : ℝ), validSamples data →
        validSamples (addSample data h d))
    ∧ (∀ (data : List Sample) (i : ℕ), validSamples data →
        validSamples (deleteSample data i)) := by
  constructor
  · intro data h d hv
    rw [addSample]
    split
    case isTrue hpos =>
      intro s hs
      rcases List.mem_append.mp hs with hmem | hmem
      · exact hv s hmem
      · rw [List.mem_singleton] at hmem
        rw [hmem]
        exact hpos
    case isFalse _ => exact hv
  · intro data i hv
    induction data generalizing i with
    | nil => intro s hs; simp [deleteSample] at hs
    | cons x rest ih =>
        cases i with
        | zero =>
            intro s hs
            exact hv s (List.mem_cons_of_mem _ hs)
        | succ n =>
            intro s hs
            rw [deleteSample] at hs
            rcases List.mem_cons.mp hs with h | h
            · rw [h]; exact hv x (List.mem_cons_self _ _)
            · exact ih n (fun y hy => hv y (List.mem_cons_of_mem _ hy)) s h

/-- Witness for the amended C9: adding (2,3) to the valid singleton (1,1)
and deleting row 0 from it both yield valid sequences. -/
theorem add_delete_preserve_positivity_witness :
    validSamples (addSample [Sample.mk 1 1] 2 3)
    ∧ validSamples (deleteSample [Sample.mk 1 1] 0) := by
  have hv : validSamples [Sample.mk 1 1] := by
    intro s hs
    rw [List.mem_singleton] at hs
    rw [hs]
    exact ⟨one_pos, one_pos⟩
  exact ⟨add_delete_preserve_positivity.1 [Sample.mk 1 1] 2 3 hv,
    add_delete_preserve_positivity.2 [Sample.mk 1 1] 0 hv⟩

/-- Claim C10: the valid decreasing data set (1,5), (2,4) has a Linear
prediction of -94 at target height 100, a negative value, and the linear
radius heuristic passes exactly that negative value to sqrt before taking
`max 0.2`; in the source's IEEE arithmetic `Math.sqrt` of a negative
argument is NaN and `Math.max(0.2, NaN)` propagates it (in this real-
valued model `Real.sqrt` is total, so the NaN itself is not
representable, only the negative argument reaching sqrt is). -/
theorem linear_negative_depth_into_sqrt :
    samplesDec = [⟨1, 5⟩, ⟨2, 4⟩]
    ∧ validSamples samplesDec
    ∧ 2 ≤ samplesDec.length
    ∧ extrapolateDepthLinear samplesDec 100 = -94
    ∧ extrapolateDepthLinear samplesDec 100 < 0
    ∧ extrapolateRadiusLinear samplesDec 100
        = max 0.2 (radiusK samplesDec
            * Real.sqrt (extrapolateDepthLinear samplesDec 100)) := by
  have hval : extrapolateDepthLinear samplesDec 100 = -94 := by
    simp [extrapolateDepthLinear, linearIntercept, linearSlope, linearNum,
      linearDenom, sumH, sumD, sumHH, sumHD, samplesDec, List.foldl]
    norm_num
  refine ⟨rfl, ?_, by simp [samplesDec], hval, by rw [hval]; norm_num, ?_⟩
  · intro s hs
    simp [samplesDec] at hs
    rcases hs with h | h <;> rw [h] <;> exact ⟨by norm_num, by norm_num⟩
  · rw [extrapolateRadiusLinear, if_neg (by simp [samplesDec])]
